import Mathlib

set_option autoImplicit false

/-!
Shallow embedding of the bulk-dispatch core of `src/src-tauri/whatsapp/mod.rs`.

Abstractions used by the embedding:
* the tauri `Window` is an emission oracle `Window.emit : EmittedEvent → Option String`
  (`none` models `Ok(())`, `some e` models the error mapped through `e.to_string()`);
* the outcome of `send_individual_message` (mod.rs 135-149) is decided in the source
  by a clock-hash pseudo-random draw, so it is abstracted as a delivery oracle from
  the call's arguments to `Option String` (`none` = `Ok(())`, `some err` = `Err(err)`);
* the `HashMap<String, String>` of personalization tokens is embedded as an
  association list: the source iterates the map in an unspecified order, which the
  list order makes explicit;
* the freshly generated UUID of `initialize_session` (mod.rs 75) is a parameter;
* `sleep` calls have no observable effect and are dropped.

Every operation returns, alongside its result, the trace of delivery calls made
and the list of events successfully emitted, so that theorems can speak about
what was passed to the collaborators and in which order.
-/

namespace SmartLibrary

/-- `StudentMessage` (mod.rs 14-21). -/
structure StudentMessage where
  student_id : String
  name : String
  phone : String
  receipt_path : Option String
  personalization_tokens : List (String × String)
  deriving DecidableEq, Repr

/-- `BulkMessageRequest` (mod.rs 6-12). -/
structure BulkMessageRequest where
  students : List StudentMessage
  message_template : String
  attach_receipt : Bool
  interval_seconds : Nat
  deriving DecidableEq, Repr

/-- `MessageProgress` (mod.rs 23-32). -/
structure MessageProgress where
  student_id : String
  name : String
  phone : String
  status : String
  error : Option String
  processed : Nat
  total : Nat
  deriving DecidableEq, Repr

/-- `WhatsAppSession` (mod.rs 34-39). -/
structure WhatsAppSession where
  is_connected : Bool
  session_id : Option String
  qr_code : Option String
  deriving DecidableEq, Repr

/-- `WhatsAppManager` (mod.rs 41-44): the session store's mutable state. -/
structure WhatsAppManager where
  session : Option String
  is_connected : Bool
  deriving DecidableEq, Repr

/-- The events the manager emits through the tauri window. -/
inductive EmittedEvent where
  | qrCode (payload : String)
  | connected
  | messageProgress (p : MessageProgress)
  | bulkComplete
  deriving DecidableEq, Repr

/-- The window abstracted as an emission oracle: `none` models `emit` returning
`Ok(())`, `some e` models an emission error mapped through `e.to_string()`. -/
structure Window where
  emit : EmittedEvent → Option String

/-- Outcome oracle for `send_individual_message` (phone, message, receipt path). -/
abbrev DeliveryOracle := String → String → Option String → Option String

/-- The arguments of one `send_individual_message` call (mod.rs 106-110). -/
structure DeliverCall where
  phone : String
  message : String
  attachment : Option String
  deriving DecidableEq, Repr

/-! ### Template rendering (mod.rs 100-103) -/

/-- Fuel-driven core of Rust `str::replace`: replaces every non-overlapping
occurrence of `pat` scanning left to right. One unit of fuel is spent per
position examined, so fuel equal to the string's length is always enough;
`replaceStr` below always supplies exactly that. -/
def replaceFuel (pat rep : List Char) : Nat → List Char → List Char
  | _, [] => []
  | 0, l => l
  | fuel + 1, c :: cs =>
    if pat.isPrefixOf (c :: cs) then
      rep ++ replaceFuel pat rep fuel (List.drop (pat.length - 1) cs)
    else
      c :: replaceFuel pat rep fuel cs

/-- Rust `String::replace(pat, rep)` on `s` (used at mod.rs 102). The source only
ever calls it with the nonempty pattern `"{" + token + "}"`; for an empty pattern
we return `s` unchanged (that case is unreachable from `render`). -/
def replaceStr (s pat rep : String) : String :=
  match pat.data with
  | [] => s
  | p :: ps => String.mk (replaceFuel (p :: ps) rep.data s.data.length s.data)

/-- The pattern `format!("{{{}}}", token)` builds at mod.rs 102: `{token}`. -/
def placeholder (token : String) : String := "\x7b" ++ token ++ "\x7d"

/-- The personalization loop (mod.rs 100-103): starting from the template, each
`(token, value)` pair, in iteration order, replaces every occurrence of
`{token}` in the accumulated string. -/
def render (template : String) (tokens : List (String × String)) : String :=
  tokens.foldl (fun acc kv => replaceStr acc (placeholder kv.1) kv.2) template

/-! ### Session store (mod.rs 46-85, 151-158) -/

/-- `WhatsAppManager::new` (mod.rs 47-52). -/
def WhatsAppManager.new : WhatsAppManager :=
  { session := none, is_connected := false }

/-- The fixed QR payload emitted during the simulated handshake (mod.rs 67). -/
def qrPayload : String := "https://web.whatsapp.com/qr/MOCK_QR_CODE"

/-- `WhatsAppManager::initialize_session` (mod.rs 54-85). Returns the updated
manager, the call's result, and the events successfully emitted. Note that the
source sets `session` and `is_connected` (lines 75-76) before emitting the
`whatsapp-connected` signal (line 78), so a failure of that second emission
returns an error with the state already transitioned. -/
def WhatsAppManager.initialize_session (m : WhatsAppManager) (w : Window)
    (fresh : String) : WhatsAppManager × Except String WhatsAppSession × List EmittedEvent :=
  if m.is_connected then
    (m, Except.ok { is_connected := true, session_id := m.session, qr_code := none }, [])
  else
    match w.emit (EmittedEvent.qrCode qrPayload) with
    | some e => (m, Except.error e, [])
    | none =>
      let m1 : WhatsAppManager := { session := some fresh, is_connected := true }
      match w.emit EmittedEvent.connected with
      | some e => (m1, Except.error e, [EmittedEvent.qrCode qrPayload])
      | none =>
        (m1,
         Except.ok { is_connected := true, session_id := m1.session, qr_code := none },
         [EmittedEvent.qrCode qrPayload, EmittedEvent.connected])

/-- `WhatsAppManager::disconnect` (mod.rs 151-154): unconditionally clears the
session identifier and the connected flag, whatever the previous state. -/
def WhatsAppManager.disconnect (_m : WhatsAppManager) : WhatsAppManager :=
  { session := none, is_connected := false }

/-! ### Bulk dispatch (mod.rs 87-133) -/

/-- The per-recipient loop of `send_bulk_messages` (mod.rs 98-129), with `index`
the 0-based position of the first remaining student. Returns the loop's result
(`ok` when every progress emission succeeded), the delivery calls made, and the
progress events successfully emitted. The source passes
`student.receipt_path.as_ref()` to `send_individual_message` unconditionally
(line 109); the embedding mirrors that. The inter-recipient `sleep` (line 127)
has no observable effect here. -/
def sendLoop (deliver : DeliveryOracle) (w : Window) (template : String)
    (total : Nat) :
    Nat → List StudentMessage → Except String Unit × List DeliverCall × List EmittedEvent
  | _, [] => (Except.ok (), [], [])
  | index, s :: rest =>
    let personalized := render template s.personalization_tokens
    let res := deliver s.phone personalized s.receipt_path
    let progress : MessageProgress :=
      { student_id := s.student_id, name := s.name, phone := s.phone,
        status := if res.isNone then "sent" else "failed",
        error := res, processed := index + 1, total := total }
    match w.emit (EmittedEvent.messageProgress progress) with
    | some e =>
      (Except.error e, [{ phone := s.phone, message := personalized, attachment := s.receipt_path }], [])
    | none =>
      let r := sendLoop deliver w template total (index + 1) rest
      (r.1,
       { phone := s.phone, message := personalized, attachment := s.receipt_path } :: r.2.1,
       EmittedEvent.messageProgress progress :: r.2.2)

/-- The value `dispatch` produces in this embedding: the threaded-through manager
state (the source receiver is an immutable borrow), the `Result`, and the traces
of delivery calls and successfully emitted events. -/
structure DispatchResult where
  manager : WhatsAppManager
  result : Except String Unit
  calls : List DeliverCall
  events : List EmittedEvent

/-- `WhatsAppManager::send_bulk_messages` (mod.rs 87-133). -/
def WhatsAppManager.send_bulk_messages (m : WhatsAppManager)
    (request : BulkMessageRequest) (deliver : DeliveryOracle) (w : Window) :
    DispatchResult :=
  if !m.is_connected then
    { manager := m, result := Except.error "WhatsApp session not connected",
      calls := [], events := [] }
  else
    let total := request.students.length
    match sendLoop deliver w request.message_template total 0 request.students with
    | (Except.ok _, calls, events) =>
      match w.emit EmittedEvent.bulkComplete with
      | some e => { manager := m, result := Except.error e, calls := calls, events := events }
      | none =>
        { manager := m, result := Except.ok (), calls := calls,
          events := events ++ [EmittedEvent.bulkComplete] }
    | (Except.error e, calls, events) =>
      { manager := m, result := Except.error e, calls := calls, events := events }

/-! ### Derived descriptions of the dispatch traces -/

/-- The delivery call the loop body makes for student `s` (mod.rs 106-110). -/
def callOf (template : String) (s : StudentMessage) : DeliverCall :=
  { phone := s.phone, message := render template s.personalization_tokens,
    attachment := s.receipt_path }

/-- The progress record the loop body builds for student `s` at 0-based
position `index` (mod.rs 112-120). -/
def progressOf (deliver : DeliveryOracle) (template : String) (total index : Nat)
    (s : StudentMessage) : MessageProgress :=
  let personalized := render template s.personalization_tokens
  let res := deliver s.phone personalized s.receipt_path
  { student_id := s.student_id, name := s.name, phone := s.phone,
    status := if res.isNone then "sent" else "failed",
    error := res, processed := index + 1, total := total }

/-- The per-recipient progress events for the students of a batch, starting at
0-based position `i`. -/
def progEvents (deliver : DeliveryOracle) (template : String) (total : Nat) :
    Nat → List StudentMessage → List EmittedEvent
  | _, [] => []
  | i, s :: rest =>
    EmittedEvent.messageProgress (progressOf deliver template total i s) ::
      progEvents deliver template total (i + 1) rest

/-- Whether `pat` occurs as a contiguous substring of the second list, mirroring
the scan order of `replaceFuel`. -/
def containsPat (pat : List Char) : List Char → Bool
  | [] => false
  | c :: cs => pat.isPrefixOf (c :: cs) || containsPat pat cs

/-- Whether a character sequence contains neither brace character: the ordinary
shape of a personalization token name. -/
def braceFree (l : List Char) : Bool :=
  l.all (fun ch => ch != '\x7b' && ch != '\x7d')

/-- The session-store invariant of the spec: the session identifier is set if
and only if the store is connected. -/
def sessionInvariant (m : WhatsAppManager) : Prop :=
  m.session.isSome = m.is_connected

lemma replaceFuel_of_not_contains (pat rep : List Char) :
    ∀ (s : List Char) (fuel : Nat), containsPat pat s = false →
      replaceFuel pat rep fuel s = s := by
  intro s
  induction s with
  | nil => intro fuel _; cases fuel <;> rfl
  | cons c cs ih =>
    intro fuel h
    rw [containsPat, Bool.or_eq_false_iff] at h
    cases fuel with
    | zero => rfl
    | succ f =>
      rw [replaceFuel, if_neg (by simp [h.1])]
      rw [ih f h.2]

lemma replaceStr_of_not_contains (s pat rep : String)
    (h : containsPat pat.data s.data = false) : replaceStr s pat rep = s := by
  cases s with
  | mk data =>
    cases hp : pat.data with
    | nil => simp [replaceStr, hp]
    | cons p ps =>
      rw [hp] at h
      simp only [replaceStr, hp]
      rw [replaceFuel_of_not_contains _ _ _ _ h]

lemma render_of_not_contains :
    ∀ (tokens : List (String × String)) (template : String),
      (∀ p ∈ tokens, containsPat (placeholder p.1).data template.data = false) →
      render template tokens = template := by
  intro tokens
  induction tokens with
  | nil => intro template _; rfl
  | cons kv rest ih =>
    intro template h
    have hstep : replaceStr template (placeholder kv.1) kv.2 = template :=
      replaceStr_of_not_contains _ _ _ (h kv (List.mem_cons_self kv rest))
    show render (replaceStr template (placeholder kv.1) kv.2) rest = template
    rw [hstep]
    exact ih template (fun p hp => h p (List.mem_cons_of_mem kv hp))

lemma braceFree_mem {l : List Char} (h : braceFree l = true) :
    ∀ ch ∈ l, ch ≠ '\x7b' ∧ ch ≠ '\x7d' := by
  intro ch hch
  have := List.all_eq_true.mp h ch hch
  simp only [Bool.and_eq_true, bne_iff_ne] at this
  exact this

lemma string_data_injective {a b : String} (h : a.data = b.data) : a = b := by
  cases a
  cases b
  exact congrArg String.mk h

lemma placeholder_data (tok : String) :
    (placeholder tok).data = '\x7b' :: (tok.data ++ ['\x7d']) := by
  cases tok with
  | mk l => rfl

lemma replaceFuel_zero (pat rep l : List Char) : replaceFuel pat rep 0 l = l := by
  cases l <;> rfl

/-- Two close-brace-terminated segments over close-brace-free bodies that start
the same string are the same segment. -/
lemma seg_eq_of_close_free :
    ∀ (t c u v : List Char), '\x7d' ∉ t → '\x7d' ∉ c →
      t ++ '\x7d' :: u = c ++ '\x7d' :: v → t = c := by
  intro t
  induction t with
  | nil =>
    intro c u v _ hc h
    cases c with
    | nil => rfl
    | cons b c' =>
      simp only [List.nil_append, List.cons_append, List.cons.injEq] at h
      apply absurd _ hc
      rw [h.1]
      exact List.mem_cons_self b c'
  | cons a t' ih =>
    intro c u v ht hc h
    cases c with
    | nil =>
      simp only [List.cons_append, List.nil_append, List.cons.injEq] at h
      apply absurd _ ht
      rw [← h.1]
      exact List.mem_cons_self a t'
    | cons b c' =>
      simp only [List.cons_append, List.cons.injEq] at h
      obtain ⟨hab, htail⟩ := h
      rw [hab, ih c' u v (fun hm => ht (List.mem_cons_of_mem a hm))
        (fun hm => hc (List.mem_cons_of_mem b hm)) htail]

/-- Occurrences of two brace-free-named placeholder patterns starting at the
same position coincide: the names are equal. -/
lemma placeholder_pattern_unique {t c s : List Char}
    (ht : braceFree t = true) (hc : braceFree c = true)
    (h1 : ('\x7b' :: (t ++ ['\x7d'])) <+: s)
    (h2 : ('\x7b' :: (c ++ ['\x7d'])) <+: s) : t = c := by
  obtain ⟨u, hu⟩ := h1
  obtain ⟨v, hv⟩ := h2
  rw [← hv] at hu
  simp only [List.cons_append, List.cons.injEq, List.append_assoc,
    List.singleton_append] at hu
  exact seg_eq_of_close_free t c u v
    (fun hm => (braceFree_mem ht _ hm).2 rfl)
    (fun hm => (braceFree_mem hc _ hm).2 rfl) hu.2

/-- An occurrence of an open-brace-headed pattern in `seg ++ s` where `seg` has
no open brace lies entirely within `s`. -/
lemma containsPat_drop_no_open (mid : List Char) :
    ∀ (seg s : List Char), (∀ ch ∈ seg, ch ≠ '\x7b') →
      containsPat ('\x7b' :: mid) (seg ++ s) = true →
      containsPat ('\x7b' :: mid) s = true := by
  intro seg
  induction seg with
  | nil => intro s _ h; simpa using h
  | cons ch segtail ih =>
    intro s hseg h
    rw [List.cons_append, containsPat, Bool.or_eq_true] at h
    rcases h with h | h
    · simp only [List.isPrefixOf, Bool.and_eq_true, beq_iff_eq] at h
      exact absurd h.1.symm (hseg ch (List.mem_cons_self ch segtail))
    · exact ih s (fun a ha => hseg a (List.mem_cons_of_mem ch ha)) h

/-- A replacement pass for an open-brace-headed pattern copies any open-brace-free
segment verbatim and continues (with some remaining fuel) after it. -/
lemma replaceFuel_copy_no_open (mid rep : List Char) :
    ∀ (seg rest : List Char) (fuel : Nat), (∀ ch ∈ seg, ch ≠ '\x7b') →
      ∃ fuel', replaceFuel ('\x7b' :: mid) rep fuel (seg ++ rest) =
        seg ++ replaceFuel ('\x7b' :: mid) rep fuel' rest := by
  intro seg
  induction seg with
  | nil => intro rest fuel _; exact ⟨fuel, rfl⟩
  | cons ch segtail ih =>
    intro rest fuel hseg
    cases fuel with
    | zero =>
      refine ⟨0, ?_⟩
      rw [replaceFuel_zero, replaceFuel_zero]
    | succ f =>
      have hne : ('\x7b' == ch) = false :=
        beq_eq_false_iff_ne.mpr
          (fun hh => hseg ch (List.mem_cons_self ch segtail) hh.symm)
      rw [List.cons_append, replaceFuel,
        if_neg (by simp [List.isPrefixOf, hne])]
      obtain ⟨fuel', hrec⟩ :=
        ih rest f (fun a ha => hseg a (List.mem_cons_of_mem ch ha))
      exact ⟨fuel', by rw [hrec, List.cons_append]⟩

lemma containsPat_append_of_right (pat : List Char) :
    ∀ (u s : List Char), containsPat pat s = true →
      containsPat pat (u ++ s) = true := by
  intro u
  induction u with
  | nil => intro s h; simpa using h
  | cons x ut ih =>
    intro s h
    rw [List.cons_append, containsPat, Bool.or_eq_true]
    exact Or.inr (ih s h)

lemma containsPat_of_isPrefixOf {pat s : List Char} (hpat : pat ≠ [])
    (h : pat.isPrefixOf s = true) : containsPat pat s = true := by
  cases s with
  | nil =>
    cases pat with
    | nil => exact absurd rfl hpat
    | cons p ps => simp [List.isPrefixOf] at h
  | cons x xs =>
    rw [containsPat, Bool.or_eq_true]
    exact Or.inl h

/-- No character of the segment `t ++ ['\x7d']` is an open brace when `t` is
brace-free. -/
lemma braceFree_memSeg {t : List Char} {ch : Char} (hm : ch ∈ t ++ ['\x7d'])
    (hbt : braceFree t = true) : ch ≠ '\x7b' := by
  rcases List.mem_append.mp hm with h | h
  · exact (braceFree_mem hbt ch h).1
  · rw [List.mem_singleton] at h
    subst h
    decide

/-- One replacement pass for `{t}` cannot destroy an occurrence of `{c}` when
the names `t` and `c` are brace-free and distinct: a `{t}` match can never
overlap the `{c}` occurrence, whatever the replacement value contains. -/
lemma replaceFuel_preserves_absent (t c rep : List Char)
    (hbt : braceFree t = true) (hbc : braceFree c = true) (hne : t ≠ c) :
    ∀ (fuel : Nat) (s : List Char),
      containsPat ('\x7b' :: (c ++ ['\x7d'])) s = true →
      containsPat ('\x7b' :: (c ++ ['\x7d']))
        (replaceFuel ('\x7b' :: (t ++ ['\x7d'])) rep fuel s) = true := by
  intro fuel
  induction fuel with
  | zero => intro s h; rw [replaceFuel_zero]; exact h
  | succ f ih =>
    intro s h
    cases s with
    | nil => simp [containsPat] at h
    | cons x xs =>
      rw [containsPat, Bool.or_eq_true] at h
      cases hmatch : ('\x7b' :: (t ++ ['\x7d'])).isPrefixOf (x :: xs) with
      | true =>
        rw [replaceFuel, if_pos hmatch]
        obtain ⟨u, hu⟩ := List.isPrefixOf_iff_prefix.mp hmatch
        rw [List.cons_append] at hu
        injection hu with hx hxs
        rcases h with h | h
        · exact absurd
            (placeholder_pattern_unique hbt hbc
              (List.isPrefixOf_iff_prefix.mp hmatch)
              (List.isPrefixOf_iff_prefix.mp h)) hne
        · rw [← hxs] at h
          have hcu : containsPat ('\x7b' :: (c ++ ['\x7d'])) u = true :=
            containsPat_drop_no_open (c ++ ['\x7d']) (t ++ ['\x7d']) u
              (fun ch hm => (braceFree_memSeg hm hbt)) h
          have hdrop :
              List.drop (('\x7b' :: (t ++ ['\x7d'])).length - 1) xs = u := by
            rw [← hxs]
            have hlen : ('\x7b' :: (t ++ ['\x7d'])).length - 1 =
                (t ++ ['\x7d']).length := by simp
            rw [hlen, List.drop_left]
          rw [hdrop]
          exact containsPat_append_of_right _ rep _ (ih u hcu)
      | false =>
        rw [replaceFuel, if_neg (by simp [hmatch])]
        rcases h with h | h
        · obtain ⟨u, hu⟩ := List.isPrefixOf_iff_prefix.mp h
          rw [List.cons_append] at hu
          injection hu with hx hxs
          obtain ⟨fuel', hcopy⟩ :=
            replaceFuel_copy_no_open (t ++ ['\x7d']) rep (c ++ ['\x7d']) u f
              (fun ch hm => (braceFree_memSeg hm hbc))
          rw [← hxs, hcopy, ← hx]
          apply containsPat_of_isPrefixOf (by simp)
          rw [List.isPrefixOf_iff_prefix]
          exact List.cons_prefix_cons.mpr ⟨rfl, List.prefix_append _ _⟩
        · rw [containsPat, Bool.or_eq_true]
          exact Or.inr (ih xs h)

lemma replaceStr_preserves_absent (s k v c : String)
    (hbk : braceFree k.data = true) (hbc : braceFree c.data = true)
    (hne : k ≠ c)
    (h : containsPat (placeholder c).data s.data = true) :
    containsPat (placeholder c).data (replaceStr s (placeholder k) v).data = true := by
  rw [placeholder_data c] at h ⊢
  unfold replaceStr
  rw [placeholder_data k]
  show containsPat ('\x7b' :: (c.data ++ ['\x7d']))
    (String.mk (replaceFuel ('\x7b' :: (k.data ++ ['\x7d'])) v.data
      s.data.length s.data)).data = true
  exact replaceFuel_preserves_absent k.data c.data v.data hbk hbc
    (fun hd => hne (string_data_injective hd)) s.data.length s.data h

lemma render_preserves_absent :
    ∀ (tokens : List (String × String)) (template c : String),
      braceFree c.data = true →
      (∀ p ∈ tokens, braceFree p.1.data = true ∧ p.1 ≠ c) →
      containsPat (placeholder c).data template.data = true →
      containsPat (placeholder c).data (render template tokens).data = true := by
  intro tokens
  induction tokens with
  | nil => intro template c _ _ h; exact h
  | cons kv rest ih =>
    intro template c hbc htok h
    have hhead := htok kv (List.mem_cons_self kv rest)
    show containsPat (placeholder c).data
      (render (replaceStr template (placeholder kv.1) kv.2) rest).data = true
    exact ih (replaceStr template (placeholder kv.1) kv.2) c hbc
      (fun p hp => htok p (List.mem_cons_of_mem kv hp))
      (replaceStr_preserves_absent template kv.1 kv.2 c hhead.1 hbc hhead.2 h)

lemma sendLoop_cons (deliver : DeliveryOracle) (w : Window) (template : String)
    (total i : Nat) (s : StudentMessage) (rest : List StudentMessage) :
    sendLoop deliver w template total i (s :: rest) =
      match w.emit (EmittedEvent.messageProgress (progressOf deliver template total i s)) with
      | some e => (Except.error e, [callOf template s], [])
      | none =>
        let r := sendLoop deliver w template total (i + 1) rest
        (r.1, callOf template s :: r.2.1,
         EmittedEvent.messageProgress (progressOf deliver template total i s) :: r.2.2) :=
  rfl

lemma progEvents_length (deliver : DeliveryOracle) (template : String) (total : Nat) :
    ∀ (l : List StudentMessage) (i : Nat),
      (progEvents deliver template total i l).length = l.length := by
  intro l
  induction l with
  | nil => intro i; rfl
  | cons s rest ih => intro i; simp [progEvents, ih (i + 1)]

lemma progEvents_getElem (deliver : DeliveryOracle) (template : String) (total : Nat) :
    ∀ (l : List StudentMessage) (i k : Nat) (s : StudentMessage),
      l[k]? = some s →
      (progEvents deliver template total i l)[k]? =
        some (EmittedEvent.messageProgress (progressOf deliver template total (i + k) s)) := by
  intro l
  induction l with
  | nil => intro i k s h; simp at h
  | cons hd rest ih =>
    intro i k s h
    cases k with
    | zero =>
      rw [List.getElem?_cons_zero] at h
      cases h
      simp [progEvents]
    | succ k' =>
      rw [List.getElem?_cons_succ] at h
      have := ih (i + 1) k' s h
      simp only [progEvents, List.getElem?_cons_succ]
      rw [this]
      have harith : i + 1 + k' = i + (k' + 1) := by omega
      rw [harith]

lemma progEvents_no_complete (deliver : DeliveryOracle) (template : String) (total : Nat) :
    ∀ (l : List StudentMessage) (i : Nat),
      EmittedEvent.bulkComplete ∉ progEvents deliver template total i l := by
  intro l
  induction l with
  | nil => intro i; simp [progEvents]
  | cons s rest ih =>
    intro i
    simp only [progEvents, List.mem_cons]
    rintro (h | h)
    · cases h
    · exact ih (i + 1) h

/-- When every sink emission is accepted, the loop succeeds, makes one delivery
call per student in order, and emits one progress event per student in order. -/
lemma sendLoop_sink_ok (deliver : DeliveryOracle) (w : Window) (template : String)
    (total : Nat) (hw : ∀ e, w.emit e = none) :
    ∀ (l : List StudentMessage) (i : Nat),
      sendLoop deliver w template total i l =
        (Except.ok (), l.map (callOf template), progEvents deliver template total i l) := by
  intro l
  induction l with
  | nil => intro i; rfl
  | cons s rest ih =>
    intro i
    rw [sendLoop_cons, hw]
    simp [ih (i + 1), progEvents]

/-- C1: the spec says the Delivery Client receives the attachment reference only
when `attachReceipt` is true, but `send_bulk_messages` passes
`student.receipt_path` to `send_individual_message` unconditionally and never
reads `request.attach_receipt` (the field is dead in the whole repository).
Evaluated at the failing input: a one-student batch with
`attach_receipt = false` and `receipt_path = Some("receipt.pdf")` still hands
the attachment reference to the delivery call. -/
theorem attachment_passed_despite_flag_false :
    (BulkMessageRequest.mk
      [{ student_id := "s1", name := "Ana", phone := "555",
         receipt_path := some "receipt.pdf", personalization_tokens := [] }]
      "hello" false 0).attach_receipt = false ∧
    (WhatsAppManager.send_bulk_messages { session := some "sid", is_connected := true }
      (BulkMessageRequest.mk
        [{ student_id := "s1", name := "Ana", phone := "555",
           receipt_path := some "receipt.pdf", personalization_tokens := [] }]
        "hello" false 0)
      (fun _ _ _ => none) { emit := fun _ => none }).calls =
      [{ phone := "555", message := "hello", attachment := some "receipt.pdf" }] := by
  exact ⟨rfl, by decide⟩

/-- C2 counterexample: starting disconnected, with a notification channel that
accepts the QR emission but rejects the `whatsapp-connected` emission,
`initialize_session` returns an error, yet the store is left with
`is_connected = true` and `session = Some(fresh)` — not in the Disconnected
state the claim requires for every failed emission. -/
theorem initialize_session_error_not_always_disconnected :
    WhatsAppManager.initialize_session { session := none, is_connected := false }
      { emit := fun ev => match ev with
          | EmittedEvent.connected => some "channel down"
          | _ => none }
      "fresh-id" =
    ({ session := some "fresh-id", is_connected := true },
     Except.error "channel down", [EmittedEvent.qrCode qrPayload]) := by
  rfl

/-- C2 amended: when `initialize_session` fails because an emission failed, the
store is left in a well-defined, fully transitioned state — but which one
depends on the failing emission: if the QR (pending) emission fails the store is
unchanged and still Disconnected, while if the `whatsapp-connected` emission
fails the store has already transitioned and is fully Connected
(`is_connected = true`, `session = Some(fresh)`); it is never half-connected. -/
theorem initialize_session_error_state_wellformed
    (m : WhatsAppManager) (w : Window) (fresh e : String)
    (hm : m.is_connected = false) :
    (w.emit (EmittedEvent.qrCode qrPayload) = some e →
      m.initialize_session w fresh = (m, Except.error e, [])) ∧
    (w.emit (EmittedEvent.qrCode qrPayload) = none →
     w.emit EmittedEvent.connected = some e →
      m.initialize_session w fresh =
        ({ session := some fresh, is_connected := true }, Except.error e,
         [EmittedEvent.qrCode qrPayload])) := by
  constructor
  · intro hqr
    simp [WhatsAppManager.initialize_session, hm, hqr]
  · intro hqr hcon
    simp [WhatsAppManager.initialize_session, hm, hqr, hcon]

/-- Witness for C2's amended theorem at a concrete input: QR emission accepted,
connected emission rejected. -/
theorem initialize_session_error_state_wellformed_witness :
    WhatsAppManager.initialize_session { session := none, is_connected := false }
      { emit := fun ev => match ev with
          | EmittedEvent.qrCode _ => none
          | _ => some "boom" }
      "sid" =
    ({ session := some "sid", is_connected := true }, Except.error "boom",
     [EmittedEvent.qrCode qrPayload]) :=
  (initialize_session_error_state_wellformed
    { session := none, is_connected := false }
    { emit := fun ev => match ev with
        | EmittedEvent.qrCode _ => none
        | _ => some "boom" }
    "sid" "boom" rfl).2 rfl rfl

/-- C3 counterexample: rendering is a sequence of in-place `String::replace`
passes, one per token in iteration order, so a substituted value IS re-scanned
by later passes and the result DOES depend on the order. With template `{a}`
and the mapping `a ↦ {b}`, `b ↦ X` (a two-entry map, shown in its two possible
iteration orders), one order yields `X` (the substituted `{b}` was re-scanned
and replaced — so `{a}` did not receive exactly its mapped value) while the
other yields `{b}`. -/
theorem render_depends_on_substitution_order :
    render "{a}" [("a", "\x7bb\x7d"), ("b", "X")] = "X" ∧
    render "{a}" [("b", "X"), ("a", "\x7bb\x7d")] = "\x7bb\x7d" := by
  decide

/-- C3 amended: rendering performs one in-place replacement pass per token in
the mapping's iteration order, so substituted values are re-scanned by later
passes and the result can depend on that order (and a present placeholder need
not receive exactly its mapped value — see the counterexample). The
absent-placeholder guarantee survives: for brace-free token names, a
placeholder `{c}` whose name `c` is not a key of the mapping and which occurs
in the template still occurs verbatim in the rendered output — no replacement
pass can overlap or destroy it, whatever the substituted values contain — and
a template in which no mapped token's pattern occurs at all is returned
entirely unchanged (in particular `render T [] = T`). -/
theorem render_absent_placeholder_preserved :
    (∀ (template c : String) (tokens : List (String × String)),
      braceFree c.data = true →
      (∀ p ∈ tokens, braceFree p.1.data = true ∧ p.1 ≠ c) →
      containsPat (placeholder c).data template.data = true →
      containsPat (placeholder c).data (render template tokens).data = true) ∧
    (∀ (template : String) (tokens : List (String × String)),
      (∀ p ∈ tokens, containsPat (placeholder p.1).data template.data = false) →
      render template tokens = template) :=
  ⟨fun template c tokens hbc htok h =>
     render_preserves_absent tokens template c hbc htok h,
   fun template tokens h => render_of_not_contains tokens template h⟩

/-- Witness for C3's amended theorem on the spec's own example: `{amount}` is
absent from the mapping `name ↦ Ana`, occurs in the template, and still occurs
in the rendered output; and a template containing no mapped pattern at all is
returned unchanged. -/
theorem render_absent_placeholder_preserved_witness :
    containsPat (placeholder "amount").data
      (render "Hi {name}, total due {amount}" [("name", "Ana")]).data = true ∧
    render "Hi {name}" [("amount", "50")] = "Hi {name}" :=
  ⟨render_absent_placeholder_preserved.1 "Hi {name}, total due {amount}" "amount"
     [("name", "Ana")] (by decide) (by decide) (by decide),
   render_absent_placeholder_preserved.2 "Hi {name}" [("amount", "50")] (by decide)⟩

/-- C5: dispatching on a disconnected session fails immediately with the
`NotConnected` error (`"WhatsApp session not connected"`), makes no delivery
calls, emits no events, and leaves the manager state unchanged. -/
theorem dispatch_not_connected
    (m : WhatsAppManager) (request : BulkMessageRequest)
    (deliver : DeliveryOracle) (w : Window)
    (hm : m.is_connected = false) :
    m.send_bulk_messages request deliver w =
      { manager := m, result := Except.error "WhatsApp session not connected",
        calls := [], events := [] } := by
  simp [WhatsAppManager.send_bulk_messages, hm]

/-- Witness for C5 at a concrete disconnected manager and one-student batch. -/
theorem dispatch_not_connected_witness :
    WhatsAppManager.send_bulk_messages { session := none, is_connected := false }
      (BulkMessageRequest.mk
        [{ student_id := "s1", name := "Ana", phone := "555",
           receipt_path := none, personalization_tokens := [] }]
        "hello" true 5)
      (fun _ _ _ => none) { emit := fun _ => none } =
      { manager := { session := none, is_connected := false },
        result := Except.error "WhatsApp session not connected",
        calls := [], events := [] } :=
  dispatch_not_connected { session := none, is_connected := false }
    (BulkMessageRequest.mk
      [{ student_id := "s1", name := "Ana", phone := "555",
         receipt_path := none, personalization_tokens := [] }]
      "hello" true 5)
    (fun _ _ _ => none) { emit := fun _ => none } rfl

/-- C8: dispatching an empty batch on a connected session whose sink accepts the
completion emission makes no delivery calls, emits no per-recipient events,
emits exactly the one batch-completion event, and returns success. -/
theorem dispatch_empty_batch
    (m : WhatsAppManager) (request : BulkMessageRequest)
    (deliver : DeliveryOracle) (w : Window)
    (hm : m.is_connected = true)
    (hs : request.students = [])
    (hw : w.emit EmittedEvent.bulkComplete = none) :
    m.send_bulk_messages request deliver w =
      { manager := m, result := Except.ok (), calls := [],
        events := [EmittedEvent.bulkComplete] } := by
  simp [WhatsAppManager.send_bulk_messages, hm, hs, sendLoop, hw]

/-- Witness for C8 at a concrete connected manager and empty batch. -/
theorem dispatch_empty_batch_witness :
    WhatsAppManager.send_bulk_messages { session := some "sid", is_connected := true }
      (BulkMessageRequest.mk [] "hello" false 2)
      (fun _ _ _ => none) { emit := fun _ => none } =
      { manager := { session := some "sid", is_connected := true },
        result := Except.ok (), calls := [],
        events := [EmittedEvent.bulkComplete] } :=
  dispatch_empty_batch { session := some "sid", is_connected := true }
    (BulkMessageRequest.mk [] "hello" false 2)
    (fun _ _ _ => none) { emit := fun _ => none } rfl rfl rfl

/-- C9: the session-store invariant (`session` is `Some` iff `is_connected`)
holds for the state `new()` builds and is preserved by `initialize_session` on
every path — already connected, QR emission failure, connected-signal emission
failure, and full success, all covered by quantifying over the emission oracle —
and by `disconnect`. (`is_connected()` is a pure read of the state and performs
no transition.) -/
theorem session_invariant_preserved :
    sessionInvariant WhatsAppManager.new ∧
    (∀ (m : WhatsAppManager) (w : Window) (fresh : String),
      sessionInvariant m → sessionInvariant (m.initialize_session w fresh).1) ∧
    (∀ m : WhatsAppManager, sessionInvariant m → sessionInvariant m.disconnect) := by
  refine ⟨rfl, ?_, ?_⟩
  · intro m w fresh hinv
    unfold WhatsAppManager.initialize_session
    rcases hc : m.is_connected with _ | _
    · simp only [hc, Bool.false_eq_true, if_false]
      cases hqr : w.emit (EmittedEvent.qrCode qrPayload) with
      | some e => simpa [hqr] using hinv
      | none =>
        cases hcon : w.emit EmittedEvent.connected with
        | some e => simp [hqr, hcon, sessionInvariant]
        | none => simp [hqr, hcon, sessionInvariant]
    · simpa [hc] using hinv
  · intro m _
    rfl

/-- Witness for C9's quantified parts at concrete inputs: a fresh store run
through `initialize_session` with an all-accepting channel, and `disconnect`
applied to a connected store. -/
theorem session_invariant_preserved_witness :
    sessionInvariant
      (WhatsAppManager.initialize_session { session := none, is_connected := false }
        { emit := fun _ => none } "sid").1 ∧
    sessionInvariant
      (WhatsAppManager.disconnect { session := some "sid", is_connected := true }) :=
  ⟨session_invariant_preserved.2.1 { session := none, is_connected := false }
     { emit := fun _ => none } "sid" rfl,
   session_invariant_preserved.2.2 { session := some "sid", is_connected := true } rfl⟩

/-- C10: `send_bulk_messages` takes the manager by immutable borrow and performs
no state writes, so the session store's state after a dispatch — both the
`is_connected` flag and the session identifier — equals the state before it, on
every path (not-connected error, sink failure, and success). -/
theorem dispatch_preserves_manager
    (m : WhatsAppManager) (request : BulkMessageRequest)
    (deliver : DeliveryOracle) (w : Window) :
    (m.send_bulk_messages request deliver w).manager = m := by
  unfold WhatsAppManager.send_bulk_messages
  rcases hsl : sendLoop deliver w request.message_template
      request.students.length 0 request.students with ⟨r, calls, events⟩
  rcases hc : m.is_connected with _ | _
  · simp [hc]
  · rcases r with e | u
    · simp [hc, hsl]
    · rcases hw2 : w.emit EmittedEvent.bulkComplete with _ | e2 <;>
        simp [hc, hsl, hw2]

/-- C4: on a connected session, when every delivery attempt and every sink
emission succeeds, dispatch returns success and emits exactly `N + 1` events:
for every `k < N` the `k`-th (0-based) event is the progress event of the
`k`-th recipient with `status = "sent"`, `processed = k + 1` (1-based) and
`total = N`, and the event at position `N` is the single batch-completion
event. -/
theorem dispatch_all_success_event_sequence
    (m : WhatsAppManager) (request : BulkMessageRequest)
    (deliver : DeliveryOracle) (w : Window)
    (hm : m.is_connected = true)
    (hd : ∀ phone msg receipt, deliver phone msg receipt = none)
    (hw : ∀ e, w.emit e = none) :
    (m.send_bulk_messages request deliver w).result = Except.ok () ∧
    (m.send_bulk_messages request deliver w).events.length =
      request.students.length + 1 ∧
    (∀ k s, request.students[k]? = some s →
      (m.send_bulk_messages request deliver w).events[k]? =
        some (EmittedEvent.messageProgress
          { student_id := s.student_id, name := s.name, phone := s.phone,
            status := "sent", error := none,
            processed := k + 1, total := request.students.length })) ∧
    (m.send_bulk_messages request deliver w).events[request.students.length]? =
      some EmittedEvent.bulkComplete := by
  have key : m.send_bulk_messages request deliver w =
      { manager := m, result := Except.ok (),
        calls := request.students.map (callOf request.message_template),
        events := progEvents deliver request.message_template
            request.students.length 0 request.students ++
          [EmittedEvent.bulkComplete] } := by
    simp [WhatsAppManager.send_bulk_messages, hm, hw,
      sendLoop_sink_ok deliver w request.message_template
        request.students.length hw request.students 0]
  rw [key]
  refine ⟨rfl, ?_, ?_, ?_⟩
  · simp [progEvents_length]
  · intro k s hks
    have hk : k < request.students.length :=
      (List.getElem?_eq_some_iff.mp hks).1
    have hlen : k < (progEvents deliver request.message_template
        request.students.length 0 request.students).length := by
      rw [progEvents_length]; exact hk
    rw [List.getElem?_append_left hlen,
      progEvents_getElem deliver request.message_template
        request.students.length request.students 0 k s hks]
    simp [progressOf, hd]
  · rw [List.getElem?_append_right (by rw [progEvents_length])]
    rw [progEvents_length]
    simp

/-- Witness for C4: a concrete two-student batch with an always-succeeding
delivery oracle and an all-accepting sink. -/
theorem dispatch_all_success_event_sequence_witness :
    (WhatsAppManager.send_bulk_messages { session := some "sid", is_connected := true }
      (BulkMessageRequest.mk
        [{ student_id := "s1", name := "Ana", phone := "p1",
           receipt_path := none, personalization_tokens := [("name", "Ana")] },
         { student_id := "s2", name := "Bob", phone := "p2",
           receipt_path := some "r2", personalization_tokens := [("name", "Bob")] }]
        "Hi {name}" true 0)
      (fun _ _ _ => none) { emit := fun _ => none }).result = Except.ok () ∧
    (WhatsAppManager.send_bulk_messages { session := some "sid", is_connected := true }
      (BulkMessageRequest.mk
        [{ student_id := "s1", name := "Ana", phone := "p1",
           receipt_path := none, personalization_tokens := [("name", "Ana")] },
         { student_id := "s2", name := "Bob", phone := "p2",
           receipt_path := some "r2", personalization_tokens := [("name", "Bob")] }]
        "Hi {name}" true 0)
      (fun _ _ _ => none) { emit := fun _ => none }).events.length = 3 ∧
    (WhatsAppManager.send_bulk_messages { session := some "sid", is_connected := true }
      (BulkMessageRequest.mk
        [{ student_id := "s1", name := "Ana", phone := "p1",
           receipt_path := none, personalization_tokens := [("name", "Ana")] },
         { student_id := "s2", name := "Bob", phone := "p2",
           receipt_path := some "r2", personalization_tokens := [("name", "Bob")] }]
        "Hi {name}" true 0)
      (fun _ _ _ => none) { emit := fun _ => none }).events[1]? =
      some (EmittedEvent.messageProgress
        { student_id := "s2", name := "Bob", phone := "p2",
          status := "sent", error := none, processed := 2, total := 2 }) ∧
    (WhatsAppManager.send_bulk_messages { session := some "sid", is_connected := true }
      (BulkMessageRequest.mk
        [{ student_id := "s1", name := "Ana", phone := "p1",
           receipt_path := none, personalization_tokens := [("name", "Ana")] },
         { student_id := "s2", name := "Bob", phone := "p2",
           receipt_path := some "r2", personalization_tokens := [("name", "Bob")] }]
        "Hi {name}" true 0)
      (fun _ _ _ => none) { emit := fun _ => none }).events[2]? =
      some EmittedEvent.bulkComplete := by
  have H := dispatch_all_success_event_sequence
    { session := some "sid", is_connected := true }
    (BulkMessageRequest.mk
      [{ student_id := "s1", name := "Ana", phone := "p1",
         receipt_path := none, personalization_tokens := [("name", "Ana")] },
       { student_id := "s2", name := "Bob", phone := "p2",
         receipt_path := some "r2", personalization_tokens := [("name", "Bob")] }]
      "Hi {name}" true 0)
    (fun _ _ _ => none) { emit := fun _ => none }
    rfl (fun _ _ _ => rfl) (fun _ => rfl)
  exact ⟨H.1, H.2.1, H.2.2.1 1 _ rfl, H.2.2.2⟩

/-- C6: on a connected session with a sink that accepts every emission, delivery
failures are isolated per recipient: dispatch still succeeds and emits the full
event sequence (one progress event per recipient, in order, then the completion
event); every recipient `k` gets an event with `processed = k + 1` (1-based) and
`total = N` regardless of delivery outcomes; and a recipient whose delivery
attempt fails with `err` gets `status = "failed"` and `error = Some err` while
the recipients after it are still processed. -/
theorem dispatch_delivery_failure_isolated
    (m : WhatsAppManager) (request : BulkMessageRequest)
    (deliver : DeliveryOracle) (w : Window)
    (hm : m.is_connected = true)
    (hw : ∀ e, w.emit e = none) :
    (m.send_bulk_messages request deliver w).result = Except.ok () ∧
    (m.send_bulk_messages request deliver w).events =
      progEvents deliver request.message_template
        request.students.length 0 request.students ++
        [EmittedEvent.bulkComplete] ∧
    (m.send_bulk_messages request deliver w).events.length =
      request.students.length + 1 ∧
    (∀ k s, request.students[k]? = some s →
      ∃ p : MessageProgress,
        (m.send_bulk_messages request deliver w).events[k]? =
          some (EmittedEvent.messageProgress p) ∧
        p.processed = k + 1 ∧ p.total = request.students.length) ∧
    (∀ k s err, request.students[k]? = some s →
      deliver s.phone (render request.message_template s.personalization_tokens)
          s.receipt_path = some err →
      (m.send_bulk_messages request deliver w).events[k]? =
        some (EmittedEvent.messageProgress
          { student_id := s.student_id, name := s.name, phone := s.phone,
            status := "failed", error := some err,
            processed := k + 1, total := request.students.length })) := by
  have key : m.send_bulk_messages request deliver w =
      { manager := m, result := Except.ok (),
        calls := request.students.map (callOf request.message_template),
        events := progEvents deliver request.message_template
            request.students.length 0 request.students ++
          [EmittedEvent.bulkComplete] } := by
    simp [WhatsAppManager.send_bulk_messages, hm, hw,
      sendLoop_sink_ok deliver w request.message_template
        request.students.length hw request.students 0]
  rw [key]
  refine ⟨rfl, rfl, ?_, ?_, ?_⟩
  · simp [progEvents_length]
  · intro k s hks
    have hlen : k < (progEvents deliver request.message_template
        request.students.length 0 request.students).length := by
      rw [progEvents_length]; exact (List.getElem?_eq_some_iff.mp hks).1
    refine ⟨progressOf deliver request.message_template
      request.students.length k s, ?_, rfl, rfl⟩
    rw [List.getElem?_append_left hlen,
      progEvents_getElem deliver request.message_template
        request.students.length request.students 0 k s hks, Nat.zero_add]
  · intro k s err hks herr
    have hlen : k < (progEvents deliver request.message_template
        request.students.length 0 request.students).length := by
      rw [progEvents_length]; exact (List.getElem?_eq_some_iff.mp hks).1
    rw [List.getElem?_append_left hlen,
      progEvents_getElem deliver request.message_template
        request.students.length request.students 0 k s hks]
    simp [progressOf, herr]

/-- Witness for C6: a three-student batch whose second delivery fails; the
second event is `failed` with the captured error and the third recipient is
still processed with `processed = 3`, `total = 3`. -/
theorem dispatch_delivery_failure_isolated_witness :
    (WhatsAppManager.send_bulk_messages { session := some "sid", is_connected := true }
      (BulkMessageRequest.mk
        [{ student_id := "s1", name := "Ana", phone := "p1",
           receipt_path := none, personalization_tokens := [] },
         { student_id := "s2", name := "Bea", phone := "p2",
           receipt_path := none, personalization_tokens := [] },
         { student_id := "s3", name := "Caz", phone := "p3",
           receipt_path := none, personalization_tokens := [] }]
        "hello" false 0)
      (fun phone _ _ => if phone = "p2" then some "boom" else none)
      { emit := fun _ => none }).result = Except.ok () ∧
    (WhatsAppManager.send_bulk_messages { session := some "sid", is_connected := true }
      (BulkMessageRequest.mk
        [{ student_id := "s1", name := "Ana", phone := "p1",
           receipt_path := none, personalization_tokens := [] },
         { student_id := "s2", name := "Bea", phone := "p2",
           receipt_path := none, personalization_tokens := [] },
         { student_id := "s3", name := "Caz", phone := "p3",
           receipt_path := none, personalization_tokens := [] }]
        "hello" false 0)
      (fun phone _ _ => if phone = "p2" then some "boom" else none)
      { emit := fun _ => none }).events[1]? =
      some (EmittedEvent.messageProgress
        { student_id := "s2", name := "Bea", phone := "p2",
          status := "failed", error := some "boom",
          processed := 2, total := 3 }) ∧
    (∃ p : MessageProgress,
      (WhatsAppManager.send_bulk_messages { session := some "sid", is_connected := true }
        (BulkMessageRequest.mk
          [{ student_id := "s1", name := "Ana", phone := "p1",
             receipt_path := none, personalization_tokens := [] },
           { student_id := "s2", name := "Bea", phone := "p2",
             receipt_path := none, personalization_tokens := [] },
           { student_id := "s3", name := "Caz", phone := "p3",
             receipt_path := none, personalization_tokens := [] }]
          "hello" false 0)
        (fun phone _ _ => if phone = "p2" then some "boom" else none)
        { emit := fun _ => none }).events[2]? =
        some (EmittedEvent.messageProgress p) ∧
      p.processed = 3 ∧ p.total = 3) := by
  have H := dispatch_delivery_failure_isolated
    { session := some "sid", is_connected := true }
    (BulkMessageRequest.mk
      [{ student_id := "s1", name := "Ana", phone := "p1",
         receipt_path := none, personalization_tokens := [] },
       { student_id := "s2", name := "Bea", phone := "p2",
         receipt_path := none, personalization_tokens := [] },
       { student_id := "s3", name := "Caz", phone := "p3",
         receipt_path := none, personalization_tokens := [] }]
      "hello" false 0)
    (fun phone _ _ => if phone = "p2" then some "boom" else none)
    { emit := fun _ => none }
    rfl (fun _ => rfl)
  exact ⟨H.1, H.2.2.2.2 1 _ "boom" rfl (by decide), H.2.2.2.1 2 _ rfl⟩

/-- When the sink accepts the progress events before position `k` but rejects
the event at position `k` with error `e`, the loop aborts at `k`: it returns
`Err(e)`, the delivery calls are exactly those of the first `k + 1` students,
and the emitted events are exactly the first `k` progress events. -/
lemma sendLoop_sink_rejects (deliver : DeliveryOracle) (w : Window)
    (template : String) (total : Nat) (e : String) :
    ∀ (l : List StudentMessage) (i k : Nat),
      k < l.length →
      (∀ j ev, j < k → (progEvents deliver template total i l)[j]? = some ev →
        w.emit ev = none) →
      (∀ ev, (progEvents deliver template total i l)[k]? = some ev →
        w.emit ev = some e) →
      sendLoop deliver w template total i l =
        (Except.error e, (l.take (k + 1)).map (callOf template),
         (progEvents deliver template total i l).take k) := by
  intro l
  induction l with
  | nil => intro i k hk _ _; simp at hk
  | cons s rest ih =>
    intro i k hk hacc hrej
    have hev0 : (progEvents deliver template total i (s :: rest))[0]? =
        some (EmittedEvent.messageProgress (progressOf deliver template total i s)) := by
      simp [progEvents]
    cases k with
    | zero =>
      have h0 := hrej _ hev0
      rw [sendLoop_cons, h0]
      simp [progEvents]
    | succ k' =>
      have h0 := hacc 0 _ (Nat.succ_pos k') hev0
      rw [sendLoop_cons, h0]
      have hacc' : ∀ j ev, j < k' →
          (progEvents deliver template total (i + 1) rest)[j]? = some ev →
          w.emit ev = none := by
        intro j ev hj hjev
        refine hacc (j + 1) ev (by omega) ?_
        simpa [progEvents, List.getElem?_cons_succ] using hjev
      have hrej' : ∀ ev,
          (progEvents deliver template total (i + 1) rest)[k']? = some ev →
          w.emit ev = some e := by
        intro ev hjev
        refine hrej ev ?_
        simpa [progEvents, List.getElem?_cons_succ] using hjev
      rw [ih (i + 1) k' (by simpa using Nat.lt_of_succ_lt_succ hk) hacc' hrej']
      simp [progEvents]

/-- C7: on a connected session, if the sink accepts the progress events of the
recipients before position `k` but rejects the progress event of recipient `k`
with error `e`, then dispatch returns `Err(e)` immediately: the delivery calls
stop at recipient `k` (no later recipient is rendered or delivered), the
emitted events are exactly the first `k` progress events, and no
batch-completion event is ever emitted. -/
theorem dispatch_sink_rejection_aborts
    (m : WhatsAppManager) (request : BulkMessageRequest)
    (deliver : DeliveryOracle) (w : Window) (k : Nat) (e : String)
    (hm : m.is_connected = true)
    (hk : k < request.students.length)
    (hacc : ∀ j ev, j < k →
      (progEvents deliver request.message_template
        request.students.length 0 request.students)[j]? = some ev →
      w.emit ev = none)
    (hrej : ∀ ev,
      (progEvents deliver request.message_template
        request.students.length 0 request.students)[k]? = some ev →
      w.emit ev = some e) :
    m.send_bulk_messages request deliver w =
      { manager := m, result := Except.error e,
        calls := (request.students.take (k + 1)).map (callOf request.message_template),
        events := (progEvents deliver request.message_template
          request.students.length 0 request.students).take k } ∧
    EmittedEvent.bulkComplete ∉
      (m.send_bulk_messages request deliver w).events := by
  have key : m.send_bulk_messages request deliver w =
      { manager := m, result := Except.error e,
        calls := (request.students.take (k + 1)).map (callOf request.message_template),
        events := (progEvents deliver request.message_template
          request.students.length 0 request.students).take k } := by
    simp [WhatsAppManager.send_bulk_messages, hm,
      sendLoop_sink_rejects deliver w request.message_template
        request.students.length e request.students 0 k hk hacc hrej]
  refine ⟨key, ?_⟩
  rw [key]
  intro hmem
  exact progEvents_no_complete deliver request.message_template
    request.students.length request.students 0
    (List.take_subset k _ hmem)

/-- Witness for C7: a two-student batch whose sink rejects the very first
progress event; dispatch errors out after the first delivery call, emits no
events and no completion. -/
theorem dispatch_sink_rejection_aborts_witness :
    WhatsAppManager.send_bulk_messages { session := some "sid", is_connected := true }
      (BulkMessageRequest.mk
        [{ student_id := "s1", name := "Ana", phone := "p1",
           receipt_path := none, personalization_tokens := [] },
         { student_id := "s2", name := "Bea", phone := "p2",
           receipt_path := none, personalization_tokens := [] }]
        "hello" false 0)
      (fun _ _ _ => none)
      { emit := fun ev => match ev with
          | EmittedEvent.messageProgress _ => some "sink down"
          | _ => none } =
      { manager := { session := some "sid", is_connected := true },
        result := Except.error "sink down",
        calls := [{ phone := "p1", message := "hello", attachment := none }],
        events := [] } ∧
    EmittedEvent.bulkComplete ∉
      (WhatsAppManager.send_bulk_messages { session := some "sid", is_connected := true }
        (BulkMessageRequest.mk
          [{ student_id := "s1", name := "Ana", phone := "p1",
             receipt_path := none, personalization_tokens := [] },
           { student_id := "s2", name := "Bea", phone := "p2",
             receipt_path := none, personalization_tokens := [] }]
          "hello" false 0)
        (fun _ _ _ => none)
        { emit := fun ev => match ev with
            | EmittedEvent.messageProgress _ => some "sink down"
            | _ => none }).events :=
  dispatch_sink_rejection_aborts
    { session := some "sid", is_connected := true }
    (BulkMessageRequest.mk
      [{ student_id := "s1", name := "Ana", phone := "p1",
         receipt_path := none, personalization_tokens := [] },
       { student_id := "s2", name := "Bea", phone := "p2",
         receipt_path := none, personalization_tokens := [] }]
      "hello" false 0)
    (fun _ _ _ => none)
    { emit := fun ev => match ev with
        | EmittedEvent.messageProgress _ => some "sink down"
        | _ => none }
    0 "sink down" rfl (by decide)
    (fun j ev hj _ => absurd hj (Nat.not_lt_zero j))
    (fun ev hev => by
      simp [progEvents, progressOf] at hev
      subst hev
      rfl)

end SmartLibrary
